import Mathlib

/-!
Shallow embedding of the zim terminal plugin (src/terminal.py).

The plugin hosts a Vte terminal widget in a zim side pane.  The logic embedded
here covers: path resolution for the working directory (the `path` property),
session (re)start via `spawn_sync` (`__init__` and `reset_terminal`), input
delivery (`ZimTerminal.execute_command` / `feed_child`), the page-change hook
(`set_folder`, driven by `TerminalWindowExtension.on_page_changed`), and the
appearance hook (`on_preferences_changed`).

External facilities are parameters of the model: the filesystem is an
`isdir : String → Bool` oracle, the outcome of `Vte.Terminal.spawn_sync` is a
`spawnFails` oracle (a failed spawn raises a GLib error in Python; the model
surfaces it in the `err` field of `StepResult`), and `HOME` is a string.
State mutation is explicit state passing; every primitive also appends the
externally observable actions it performs to an effect trace.
-/

namespace ZimTerminalPlugin

/-- Constants from src/terminal.py lines 40-48. -/
def FONT_SIZE_MIN : Int := 6

def FONT_SIZE_MAX : Int := 72

def DEFAULT_FONT_SIZE : Int := 9

def DEFAULT_FONT_COLOR : String := "#FFFFFF"

def DEFAULT_BACKGROUND_COLOR : String := "#000000"

def DEFAULT_COMMAND_INTERPRETER : String := "/bin/bash"

def CLEAR_COMMAND : String := "clear"

def DEFAULT_AUTO_SWITCH_PATH_ON_PAGE_CHANGE : Bool := true

/-- The plugin preferences (src/terminal.py lines 59-68): one value per key
declared in `TerminalPlugin.plugin_preferences`. -/
structure Preferences where
  pane : String
  font_size : Int
  font_color : String
  background_color : String
  command_interpreter : String
  auto_switch_path_on_page_change : Bool
deriving DecidableEq

/-- External environment: filesystem `isdir` oracle (os.path.isdir), the
outcome of process spawning for a (directory, command) pair, and HOME. -/
structure Env where
  isdir : String → Bool
  spawnFails : String → String → Bool
  home : String

/-- A child shell process handle: spawn sequence number plus the directory and
interpreter it was spawned with. -/
structure Handle where
  id : Nat
  dir : String
  cmd : String
deriving DecidableEq

/-- Externally observable actions performed on the Vte terminal. -/
inductive Effect where
  | spawn (dir : String) (cmd : String)
  | feed (bytes : String)
  | setColorForeground (c : String)
  | setColorBackground (c : String)
  | setFontSize (n : Int)
deriving DecidableEq

def Effect.isSpawn : Effect → Bool
  | .spawn _ _ => true
  | _ => false

def Effect.isFeed : Effect → Bool
  | .feed _ => true
  | _ => false

/-- The mutable state of one `TerminalPluginWidget`: the stored attachment
folder reference (`self.folder`, unset before the first `set_folder` call),
the child process currently referenced by the terminal view, a spawn counter,
the bytes fed to the current session since its spawn, the applied appearance
values, and the cumulative effect trace. -/
structure PanelState where
  folder : Option String
  child : Option Handle
  spawnCount : Nat
  fedSinceSpawn : List String
  fgColor : String
  bgColor : String
  fontSize : Int
  trace : List Effect
deriving DecidableEq

/-- Result of one operation: the state after it, plus the error it raised to
its caller, if any (mirrors a Python exception propagating out of the method;
mutations made before the raise are kept in `state`). -/
structure StepResult where
  state : PanelState
  err : Option String
deriving DecidableEq

/-- Split a character list on the path separator. -/
def splitPath : List Char → List (List Char)
  | [] => [[]]
  | c :: rest =>
    match splitPath rest with
    | [] => [[c]]
    | s :: ss => if c = '/' then [] :: s :: ss else (c :: s) :: ss

/-- Path components of a POSIX path as pathlib parses them: split on the
separator, dropping empty and single-dot components. -/
def pathComponents (p : String) : List (List Char) :=
  (splitPath p.data).filter (fun c => c != [] && c != ['.'])

/-- Whether the path is absolute (leading separator). -/
def isAbsolutePath (p : String) : Bool :=
  match p.data with
  | [] => false
  | c :: _ => c == '/'

/-- Join components with the path separator. -/
def joinWithSlash : List (List Char) → List Char
  | [] => []
  | [c] => c
  | c :: rest => c ++ '/' :: joinWithSlash rest

/-- Render components back to a path string the way `str(Path(...))` does. -/
def renderPath (absolute : Bool) (cs : List (List Char)) : String :=
  if absolute then String.mk ('/' :: joinWithSlash cs)
  else if cs.isEmpty then "." else String.mk (joinWithSlash cs)

/-- Model of Python `str(Path(p).parent)`: drop the last path component. -/
def posixParent (p : String) : String :=
  renderPath (isAbsolutePath p) (pathComponents p).dropLast

/-- The `path` property (src/terminal.py lines 288-293): the stored folder
reference's filesystem path if it is an existing directory, else the parent
directory of that path.  A total pure function: it can raise no error and has
no side effects. -/
def TerminalPluginWidget.path (isdir : String → Bool) (folderPath : String) : String :=
  if isdir folderPath then folderPath else posixParent folderPath

/-- Error message a failed `Vte.Terminal.spawn_sync` raises. -/
def spawnErrorMessage (dir cmd : String) : String :=
  "GLib.Error: failed to execute child process " ++ cmd ++ " in " ++ dir

/-- Model of `Vte.Terminal.spawn_sync` (src/terminal.py lines 136-144 and
246-254): on success the terminal view references a fresh child process in
the given directory running the given command, superseding the previous one,
and the visible session input log restarts; on failure a GLib error is raised
and the state is untouched. -/
def spawn_sync (env : Env) (st : PanelState) (dir cmd : String) : StepResult :=
  if env.spawnFails dir cmd then
    ⟨st, some (spawnErrorMessage dir cmd)⟩
  else
    ⟨{ st with
        child := some ⟨st.spawnCount, dir, cmd⟩,
        spawnCount := st.spawnCount + 1,
        fedSinceSpawn := [],
        trace := st.trace ++ [.spawn dir cmd] }, none⟩

/-- Model of `ZimTerminal.feed_child` (src/terminal.py lines 105-115):
delivers the given bytes verbatim to the session input. -/
def feed_child (st : PanelState) (bytes : String) : PanelState :=
  { st with
      fedSinceSpawn := st.fedSinceSpawn ++ [bytes],
      trace := st.trace ++ [.feed bytes] }

/-- `ZimTerminal.execute_command` (src/terminal.py lines 100-103), as the
bytes it delivers: `command[-1]` raises IndexError on the empty string;
otherwise a newline is appended when the last character is not a newline, and
the result is fed to the child. -/
def ZimTerminal.execute_command (command : String) : Except String String :=
  if command = "" then .error "IndexError: string index out of range"
  else if command.back = Char.ofNat 10 then .ok command
  else .ok (command ++ "\n")

/-- `ZimTerminal.execute_command` acting on the panel state: feed the
resolved bytes, or propagate the IndexError. -/
def execute_command_step (st : PanelState) (command : String) : StepResult :=
  match ZimTerminal.execute_command command with
  | .ok bytes => ⟨feed_child st bytes, none⟩
  | .error e => ⟨st, some e⟩

/-- `TerminalPluginWidget.reset_terminal` (src/terminal.py lines 244-256):
spawn the interpreter in the resolved path, then send the clear command via
`execute_command`.  Accessing `self.path` reads `self.folder`, which raises
AttributeError if no page change has stored it yet; a spawn failure
propagates out before any input is fed. -/
def reset_terminal (env : Env) (prefs : Preferences) (st : PanelState) : StepResult :=
  match st.folder with
  | none => ⟨st, some "AttributeError: TerminalPluginWidget has no folder"⟩
  | some f =>
    let r := spawn_sync env st (TerminalPluginWidget.path env.isdir f) prefs.command_interpreter
    match r.err with
    | some e => ⟨r.state, some e⟩
    | none => execute_command_step r.state CLEAR_COMMAND

/-- `TerminalPluginWidget.on_preferences_changed` (src/terminal.py lines
198-203): apply foreground color, background color and font size from the
current preference values to the terminal view. -/
def on_preferences_changed (prefs : Preferences) (st : PanelState) : StepResult :=
  ⟨{ st with
      fgColor := prefs.font_color,
      bgColor := prefs.background_color,
      fontSize := prefs.font_size,
      trace := st.trace ++
        [.setColorForeground prefs.font_color,
         .setColorBackground prefs.background_color,
         .setFontSize prefs.font_size] }, none⟩

/-- `TerminalPluginWidget.set_folder` (src/terminal.py lines 263-266): store
the new folder reference, then reset the terminal iff the
auto_switch_path_on_page_change preference is set.  This is what
`TerminalWindowExtension.on_page_changed` (lines 88-91) invokes. -/
def set_folder (env : Env) (prefs : Preferences) (st : PanelState)
    (folderPath : String) : StepResult :=
  let st1 := { st with folder := some folderPath }
  if prefs.auto_switch_path_on_page_change then reset_terminal env prefs st1
  else ⟨st1, none⟩

/-- State of a freshly constructed, not yet spawned widget. -/
def initState : PanelState :=
  { folder := none, child := none, spawnCount := 0, fedSinceSpawn := [],
    fgColor := "", bgColor := "", fontSize := 0, trace := [] }

/-- `TerminalPluginWidget.__init__` (src/terminal.py lines 123-160): spawn
the configured interpreter in HOME, then apply the appearance preferences.
A spawn failure propagates out of the constructor. -/
def widget_init (env : Env) (prefs : Preferences) : StepResult :=
  let r := spawn_sync env initState env.home prefs.command_interpreter
  match r.err with
  | some e => ⟨r.state, some e⟩
  | none => on_preferences_changed prefs r.state

/-- Events delivered to the widget over its lifetime, each carrying the
preference values current at delivery time. -/
inductive Event where
  | pageChanged (folderPath : String)
  | preferencesChanged
  | changePathButton
  | propertiesDialogConfirmed
  | propertiesDialogCancelled
  | userCommand (s : String)
deriving DecidableEq

/-- Dispatch one event to the widget (src/terminal.py: `set_folder`,
`on_preferences_changed`, `on_change_path_button`, `show_properties`,
`ZimTerminal.execute_command`). -/
def step (env : Env) (pe : Preferences × Event) (st : PanelState) : StepResult :=
  match pe.2 with
  | .pageChanged f => set_folder env pe.1 st f
  | .preferencesChanged => on_preferences_changed pe.1 st
  | .changePathButton => reset_terminal env pe.1 st
  | .propertiesDialogConfirmed => reset_terminal env pe.1 st
  | .propertiesDialogCancelled => ⟨st, none⟩
  | .userCommand s => execute_command_step st s

/-- Run a sequence of events; an exception from one handler is caught by the
GTK main loop, so later events still run on the mutated state. -/
def run (env : Env) : List (Preferences × Event) → PanelState → PanelState
  | [], st => st
  | pe :: rest, st => run env rest (step env pe st).state

/-- Handles the panel currently references (through the terminal view). -/
def referencedHandles (st : PanelState) : List Handle :=
  st.child.toList

/-- Every referenced handle was produced by an earlier spawn. -/
def wfState (st : PanelState) : Prop :=
  ∀ h : Handle, st.child = some h → h.id < st.spawnCount

/-- Follows the spec words, section 4.2: `reset(dir, cmd)` is `start(dir,
cmd)` immediately followed by sending the clear-screen literal "clear\n"
verbatim as session input. -/
def ShellSession.reset_spec (env : Env) (st : PanelState) (dir cmd : String) : StepResult :=
  let r := spawn_sync env st dir cmd
  match r.err with
  | some e => ⟨r.state, some e⟩
  | none => ⟨feed_child r.state "clear\n", none⟩

/-- Modelled from the spec: the bounds check on the font_size preference is
performed by the host preference store (zim, outside src/), against the
bounds `(FONT_SIZE_MIN, FONT_SIZE_MAX)` declared at src/terminal.py line 62;
per spec section 7(d) an out-of-bounds value is clamped to the documented
bounds at the configuration boundary rather than failing. -/
def PreferenceStore.storeFontSize (prefs : Preferences) (requested : Int) : Preferences :=
  { prefs with font_size := max FONT_SIZE_MIN (min FONT_SIZE_MAX requested) }

/-- Concrete preference values for witnesses (auto switch on). -/
def prefsAutoOn : Preferences :=
  { pane := "bottom_pane", font_size := DEFAULT_FONT_SIZE,
    font_color := DEFAULT_FONT_COLOR, background_color := DEFAULT_BACKGROUND_COLOR,
    command_interpreter := DEFAULT_COMMAND_INTERPRETER,
    auto_switch_path_on_page_change := true }

/-- Concrete preference values for witnesses (auto switch off). -/
def prefsAutoOff : Preferences :=
  { prefsAutoOn with auto_switch_path_on_page_change := false }

/-- Concrete benign environment for witnesses: `/home/user` is the only
directory, spawns succeed, HOME is `/home/user`. -/
def envA : Env :=
  { isdir := fun p => p == "/home/user",
    spawnFails := fun _ _ => false,
    home := "/home/user" }

/-- Concrete failing environment for witnesses: every spawn fails. -/
def envFail : Env :=
  { isdir := fun _ => false,
    spawnFails := fun _ _ => true,
    home := "/root" }

/-- Concrete panel state with a stored folder, for witnesses. -/
def stWithFolder : PanelState :=
  { initState with folder := some "/home/user" }

/-! ## Theorems -/

/-- The clear command resolves to the literal bytes "clear\n": CLEAR_COMMAND
does not end in a newline, so `execute_command` appends one. -/
theorem execute_command_clear :
    ZimTerminal.execute_command CLEAR_COMMAND = .ok "clear\n" := rfl

/-- Claim C1: the path property returns the folder path P itself when P is an
existing directory, and the parent directory of P otherwise.  The embedded
`TerminalPluginWidget.path` is a total pure function of the input path and
the `isdir` filesystem oracle, so it is deterministic, has no side effects,
and raises no error even when neither P nor its parent exists. -/
theorem path_resolves_dir_or_parent (isdir : String → Bool) (p : String) :
    (isdir p = true → TerminalPluginWidget.path isdir p = p) ∧
    (isdir p = false → TerminalPluginWidget.path isdir p = posixParent p) := by
  constructor <;> intro h <;> simp [TerminalPluginWidget.path, h]

/-- Witness for C1: an existing directory is returned verbatim; a missing
subfolder resolves to its parent directory. -/
theorem path_resolves_dir_or_parent_witness :
    TerminalPluginWidget.path envA.isdir "/home/user" = "/home/user" ∧
    TerminalPluginWidget.path envA.isdir "/home/user/missing" = "/home/user" :=
  ⟨(path_resolves_dir_or_parent envA.isdir "/home/user").1 (by decide),
    ((path_resolves_dir_or_parent envA.isdir "/home/user/missing").2 (by decide)).trans
      (by decide)⟩

/-- Claim C2: `set_folder` (the page-change notification) triggers a terminal
reset if and only if auto_switch_path_on_page_change is true at call time;
when it is false, the only change is the stored folder reference — the child
process (and hence its working directory) and the effect trace are untouched. -/
theorem set_folder_resets_iff_auto (env : Env) (prefs : Preferences)
    (st : PanelState) (f : String) :
    (prefs.auto_switch_path_on_page_change = true →
      set_folder env prefs st f = reset_terminal env prefs { st with folder := some f }) ∧
    (prefs.auto_switch_path_on_page_change = true →
      env.spawnFails (TerminalPluginWidget.path env.isdir f) prefs.command_interpreter = false →
      (set_folder env prefs st f).state.child =
        some ⟨st.spawnCount, TerminalPluginWidget.path env.isdir f,
          prefs.command_interpreter⟩) ∧
    (prefs.auto_switch_path_on_page_change = false →
      set_folder env prefs st f = ⟨{ st with folder := some f }, none⟩ ∧
      (set_folder env prefs st f).state.child = st.child ∧
      (set_folder env prefs st f).state.trace = st.trace) := by
  refine ⟨fun h => by simp [set_folder, h], fun h hfail => ?_, fun h => by simp [set_folder, h]⟩
  simp [set_folder, h, reset_terminal, spawn_sync, hfail, execute_command_step,
    execute_command_clear, feed_child]

/-- Witness for C2: with the option off, a page change to a missing folder
leaves the session untouched and only stores the folder. -/
theorem set_folder_resets_iff_auto_witness :
    set_folder envA prefsAutoOff initState "/home/user/attachments/missing" =
      ⟨{ initState with folder := some "/home/user/attachments/missing" }, none⟩ ∧
    (set_folder envA prefsAutoOff initState "/home/user/attachments/missing").state.child =
      initState.child :=
  have h := (set_folder_resets_iff_auto envA prefsAutoOff initState
    "/home/user/attachments/missing").2.2 (by decide)
  ⟨h.1, h.2.1⟩

/-- Claim C3: `reset_terminal` coincides with the spec-side composite
`ShellSession.reset_spec` — a start (spawn of the interpreter in the resolved
directory) immediately followed by sending the clear-screen command as
session input — and on a successful spawn the bytes delivered to the new
session are exactly "clear\n". -/
theorem reset_refines_start_then_clear (env : Env) (prefs : Preferences)
    (st : PanelState) (f : String) (hf : st.folder = some f) :
    reset_terminal env prefs st =
      ShellSession.reset_spec env st (TerminalPluginWidget.path env.isdir f)
        prefs.command_interpreter ∧
    (env.spawnFails (TerminalPluginWidget.path env.isdir f) prefs.command_interpreter = false →
      (reset_terminal env prefs st).state.fedSinceSpawn = ["clear\n"] ∧
      (reset_terminal env prefs st).state.trace =
        st.trace ++
          [.spawn (TerminalPluginWidget.path env.isdir f) prefs.command_interpreter,
           .feed "clear\n"]) := by
  cases hfail : env.spawnFails (TerminalPluginWidget.path env.isdir f)
      prefs.command_interpreter <;>
    simp [reset_terminal, ShellSession.reset_spec, spawn_sync, hf, hfail,
      execute_command_step, execute_command_clear, feed_child]

/-- Witness for C3 on a concrete state: the reset equals the start-then-clear
composite and feeds exactly "clear\n". -/
theorem reset_refines_start_then_clear_witness :
    reset_terminal envA prefsAutoOn stWithFolder =
      ShellSession.reset_spec envA stWithFolder "/home/user" "/bin/bash" ∧
    (reset_terminal envA prefsAutoOn stWithFolder).state.fedSinceSpawn = ["clear\n"] :=
  have h := reset_refines_start_then_clear envA prefsAutoOn stWithFolder "/home/user" rfl
  ⟨h.1.trans (by decide), (h.2 (by decide)).1⟩

/-- Claim C4: for a non-empty command, `execute_command` delivers the command
followed by a newline when it does not already end in one, and the command
verbatim when it does; in particular "ls" delivers "ls\n" and "ls\n" also
delivers exactly "ls\n". -/
theorem execute_command_appends_newline (s : String) (hs : s ≠ "") :
    (s.back ≠ Char.ofNat 10 → ZimTerminal.execute_command s = .ok (s ++ "\n")) ∧
    (s.back = Char.ofNat 10 → ZimTerminal.execute_command s = .ok s) ∧
    ZimTerminal.execute_command "ls" = .ok "ls\n" ∧
    ZimTerminal.execute_command "ls\n" = .ok "ls\n" := by
  refine ⟨fun h => ?_, fun h => ?_, rfl, rfl⟩ <;>
    simp [ZimTerminal.execute_command, hs, h]

/-- Witness for C4 at the concrete inputs named by the claim. -/
theorem execute_command_appends_newline_witness :
    ZimTerminal.execute_command "ls" = .ok "ls\n" ∧
    ZimTerminal.execute_command "ls\n" = .ok "ls\n" :=
  have h := execute_command_appends_newline "ls" (by decide)
  ⟨h.2.2.1, h.2.2.2⟩

/-- The fresh widget state references no handle. -/
theorem wf_initState : wfState initState := by
  intro h hh
  simp [initState] at hh

/-- `spawn_sync` preserves the handle bookkeeping invariant. -/
theorem wf_spawn_sync (env : Env) (st : PanelState) (dir cmd : String)
    (hwf : wfState st) : wfState (spawn_sync env st dir cmd).state := by
  unfold spawn_sync
  split
  · exact hwf
  · intro h hh
    simp only [Option.some.injEq] at hh
    subst hh
    exact Nat.lt_succ_self _

/-- `execute_command_step` preserves the handle bookkeeping invariant. -/
theorem wf_execute_command_step (st : PanelState) (c : String)
    (hwf : wfState st) : wfState (execute_command_step st c).state := by
  unfold execute_command_step
  cases ZimTerminal.execute_command c <;> exact hwf

/-- `reset_terminal` preserves the handle bookkeeping invariant. -/
theorem wf_reset_terminal (env : Env) (prefs : Preferences) (st : PanelState)
    (hwf : wfState st) : wfState (reset_terminal env prefs st).state := by
  unfold reset_terminal
  cases hfold : st.folder with
  | none => exact hwf
  | some f =>
    have h1 := wf_spawn_sync env st (TerminalPluginWidget.path env.isdir f)
      prefs.command_interpreter hwf
    cases herr : (spawn_sync env st (TerminalPluginWidget.path env.isdir f)
        prefs.command_interpreter).err with
    | none => simp only [herr]; exact wf_execute_command_step _ _ h1
    | some e => simp only [herr]; exact h1

/-- `set_folder` preserves the handle bookkeeping invariant. -/
theorem wf_set_folder (env : Env) (prefs : Preferences) (st : PanelState)
    (f : String) (hwf : wfState st) : wfState (set_folder env prefs st f).state := by
  unfold set_folder
  split
  · exact wf_reset_terminal env prefs _ hwf
  · exact hwf

/-- Every event handler preserves the handle bookkeeping invariant. -/
theorem wf_step (env : Env) (pe : Preferences × Event) (st : PanelState)
    (hwf : wfState st) : wfState (step env pe st).state := by
  unfold step
  cases pe.2 with
  | pageChanged f => exact wf_set_folder env pe.1 st f hwf
  | preferencesChanged => exact hwf
  | changePathButton => exact wf_reset_terminal env pe.1 st hwf
  | propertiesDialogConfirmed => exact wf_reset_terminal env pe.1 st hwf
  | propertiesDialogCancelled => exact hwf
  | userCommand s => exact wf_execute_command_step st s hwf

/-- Running any event sequence preserves the handle bookkeeping invariant. -/
theorem wf_run (env : Env) (tr : List (Preferences × Event)) (st : PanelState)
    (hwf : wfState st) : wfState (run env tr st) := by
  induction tr generalizing st with
  | nil => exact hwf
  | cons pe rest ih => exact ih _ (wf_step env pe st hwf)

/-- The constructor establishes the handle bookkeeping invariant. -/
theorem wf_widget_init (env : Env) (prefs : Preferences) :
    wfState (widget_init env prefs).state := by
  unfold widget_init
  have h1 := wf_spawn_sync env initState env.home prefs.command_interpreter wf_initState
  cases herr : (spawn_sync env initState env.home prefs.command_interpreter).err with
  | none => simp only [herr]; exact h1
  | some e => simp only [herr]; exact h1

/-- A successful `reset_terminal` replaces the referenced child with the
freshly spawned handle and advances the spawn counter. -/
theorem reset_terminal_ok_child (env : Env) (prefs : Preferences) (st : PanelState)
    (hok : (reset_terminal env prefs st).err = none) :
    ∃ f : String, st.folder = some f ∧
      (reset_terminal env prefs st).state.child =
        some ⟨st.spawnCount, TerminalPluginWidget.path env.isdir f,
          prefs.command_interpreter⟩ ∧
      (reset_terminal env prefs st).state.spawnCount = st.spawnCount + 1 := by
  cases hfold : st.folder with
  | none => simp [reset_terminal, hfold] at hok
  | some f =>
    refine ⟨f, rfl, ?_⟩
    cases hfail : env.spawnFails (TerminalPluginWidget.path env.isdir f)
        prefs.command_interpreter with
    | false =>
      simp [reset_terminal, hfold, spawn_sync, hfail, execute_command_step,
        execute_command_clear, feed_child]
    | true =>
      simp [reset_terminal, hfold, spawn_sync, hfail] at hok

/-- `reset_terminal` never changes the stored folder reference. -/
theorem reset_terminal_state_folder (env : Env) (prefs : Preferences) (st : PanelState) :
    (reset_terminal env prefs st).state.folder = st.folder := by
  cases hfold : st.folder with
  | none => simp [reset_terminal, hfold]
  | some f =>
    cases hfail : env.spawnFails (TerminalPluginWidget.path env.isdir f)
        prefs.command_interpreter <;>
      simp [reset_terminal, hfold, spawn_sync, hfail, execute_command_step,
        execute_command_clear, feed_child]

/-- Claim C5: after any event sequence from widget construction the panel
references at most one live child handle, and a successful reset supersedes:
the state after it again references at most one handle, and that handle is
distinct from every handle referenced before the reset, so repeated resets
never accumulate referenced processes. -/
theorem single_live_session (env : Env) (tr : List (Preferences × Event))
    (prefs0 prefs : Preferences) (st : PanelState)
    (hst : st = run env tr (widget_init env prefs0).state)
    (hok : (reset_terminal env prefs st).err = none) :
    (referencedHandles st).length ≤ 1 ∧
    (referencedHandles (reset_terminal env prefs st).state).length ≤ 1 ∧
    ∀ h ∈ referencedHandles st, (reset_terminal env prefs st).state.child ≠ some h := by
  have hwf : wfState st := by
    subst hst
    exact wf_run env tr _ (wf_widget_init env prefs0)
  obtain ⟨f, hfold, hchild, hcount⟩ := reset_terminal_ok_child env prefs st hok
  refine ⟨?_, ?_, ?_⟩
  · cases hc : st.child <;> simp [referencedHandles, hc]
  · simp [referencedHandles, hchild]
  · intro h hmem
    have hh : st.child = some h := by
      simpa [referencedHandles, Option.mem_toList, Option.mem_def] using hmem
    have hlt := hwf h hh
    rw [hchild]
    intro heq
    simp only [Option.some.injEq] at heq
    subst heq
    exact Nat.lt_irrefl _ hlt

/-- Witness for C5 on a concrete run: construction, then a page change with
auto switch off, then a successful reset; the handle referenced before the
reset is no longer referenced after it. -/
theorem single_live_session_witness :
    (referencedHandles (run envA [(prefsAutoOff, .pageChanged "/home/user")]
      (widget_init envA prefsAutoOff).state)).length ≤ 1 ∧
    (referencedHandles (reset_terminal envA prefsAutoOn
      (run envA [(prefsAutoOff, .pageChanged "/home/user")]
        (widget_init envA prefsAutoOff).state)).state).length ≤ 1 ∧
    (reset_terminal envA prefsAutoOn
      (run envA [(prefsAutoOff, .pageChanged "/home/user")]
        (widget_init envA prefsAutoOff).state)).state.child ≠
      some ⟨0, "/home/user", "/bin/bash"⟩ :=
  have h := single_live_session envA [(prefsAutoOff, .pageChanged "/home/user")]
    prefsAutoOff prefsAutoOn _ rfl (by decide)
  ⟨h.1, h.2.1, h.2.2 ⟨0, "/home/user", "/bin/bash"⟩ (by decide)⟩

/-- Claim C6: a requested font size passes the configuration boundary (the
host preference store, modelled from the spec against the bounds declared at
src/terminal.py line 62) clamped into [FONT_SIZE_MIN, FONT_SIZE_MAX];
`on_preferences_changed` applies exactly the stored value to the rendering
surface, so an out-of-bounds request is never applied verbatim. -/
theorem font_size_clamped (prefs : Preferences) (v : Int) (st : PanelState) :
    FONT_SIZE_MIN ≤ (PreferenceStore.storeFontSize prefs v).font_size ∧
    (PreferenceStore.storeFontSize prefs v).font_size ≤ FONT_SIZE_MAX ∧
    (on_preferences_changed (PreferenceStore.storeFontSize prefs v) st).state.fontSize =
      (PreferenceStore.storeFontSize prefs v).font_size ∧
    (v < FONT_SIZE_MIN ∨ FONT_SIZE_MAX < v →
      (on_preferences_changed (PreferenceStore.storeFontSize prefs v) st).state.fontSize ≠ v) := by
  have h1 : FONT_SIZE_MIN ≤ max FONT_SIZE_MIN (min FONT_SIZE_MAX v) := le_max_left _ _
  have h2 : max FONT_SIZE_MIN (min FONT_SIZE_MAX v) ≤ FONT_SIZE_MAX :=
    max_le (by decide) (min_le_left _ _)
  refine ⟨h1, h2, rfl, ?_⟩
  intro hout heq
  have heq' : max FONT_SIZE_MIN (min FONT_SIZE_MAX v) = v := heq
  cases hout with
  | inl hlo => rw [heq'] at h1; exact absurd hlo (not_lt.mpr h1)
  | inr hhi => rw [heq'] at h2; exact absurd hhi (not_lt.mpr h2)

/-- Witness for C6: a requested font size of 100 is stored in bounds and the
applied value is not 100. -/
theorem font_size_clamped_witness :
    FONT_SIZE_MIN ≤ (PreferenceStore.storeFontSize prefsAutoOn 100).font_size ∧
    (PreferenceStore.storeFontSize prefsAutoOn 100).font_size ≤ FONT_SIZE_MAX ∧
    (on_preferences_changed (PreferenceStore.storeFontSize prefsAutoOn 100)
      initState).state.fontSize ≠ 100 :=
  have h := font_size_clamped prefsAutoOn 100 initState
  ⟨h.1, h.2.1, h.2.2.2 (Or.inr (by decide))⟩

/-- Claim C7: a spawn failure during `reset_terminal` or during the widget
constructor surfaces to the caller as the spawn error itself (`err` is the
GLib error, not `none`), with no fallback that absorbs it. -/
theorem spawn_failure_propagates (env : Env) (prefs : Preferences)
    (st : PanelState) (f : String) :
    (st.folder = some f →
      env.spawnFails (TerminalPluginWidget.path env.isdir f) prefs.command_interpreter = true →
      reset_terminal env prefs st =
        ⟨st, some (spawnErrorMessage (TerminalPluginWidget.path env.isdir f)
          prefs.command_interpreter)⟩) ∧
    (env.spawnFails env.home prefs.command_interpreter = true →
      widget_init env prefs =
        ⟨initState, some (spawnErrorMessage env.home prefs.command_interpreter)⟩) := by
  constructor
  · intro hf hfail
    simp [reset_terminal, hf, spawn_sync, hfail]
  · intro hfail
    simp [widget_init, spawn_sync, hfail]

/-- Witness for C7 in an environment where every spawn fails: both the reset
and the constructor raise the spawn error. -/
theorem spawn_failure_propagates_witness :
    reset_terminal envFail prefsAutoOn stWithFolder =
      ⟨stWithFolder, some (spawnErrorMessage "/home" "/bin/bash")⟩ ∧
    widget_init envFail prefsAutoOn =
      ⟨initState, some (spawnErrorMessage "/root" "/bin/bash")⟩ :=
  have h := spawn_failure_propagates envFail prefsAutoOn stWithFolder "/home/user"
  ⟨(h.1 rfl (by decide)).trans (by decide), (h.2 (by decide)).trans (by decide)⟩

/-- Claim C8: `on_preferences_changed` raises no error and only updates the
appearance (foreground color, background color, font size re-read from the
current preferences); the referenced child process, the stored folder, the
session input log and the spawn counter are unchanged, and the effects it
appends contain no spawn and no feed — so no reset and no input delivery
occur. -/
theorem preferences_changed_appearance_only (prefs : Preferences) (st : PanelState) :
    (on_preferences_changed prefs st).err = none ∧
    (on_preferences_changed prefs st).state.child = st.child ∧
    (on_preferences_changed prefs st).state.folder = st.folder ∧
    (on_preferences_changed prefs st).state.fedSinceSpawn = st.fedSinceSpawn ∧
    (on_preferences_changed prefs st).state.spawnCount = st.spawnCount ∧
    (on_preferences_changed prefs st).state.fgColor = prefs.font_color ∧
    (on_preferences_changed prefs st).state.bgColor = prefs.background_color ∧
    (on_preferences_changed prefs st).state.fontSize = prefs.font_size ∧
    (((on_preferences_changed prefs st).state.trace.drop st.trace.length).all
      (fun e => !e.isSpawn && !e.isFeed)) = true := by
  refine ⟨rfl, rfl, rfl, rfl, rfl, rfl, rfl, rfl, ?_⟩
  show ((st.trace ++
    [Effect.setColorForeground prefs.font_color,
     Effect.setColorBackground prefs.background_color,
     Effect.setFontSize prefs.font_size]).drop st.trace.length).all
      (fun e => !e.isSpawn && !e.isFeed) = true
  rw [List.drop_left]
  rfl

/-- Claim C9: `execute_command` on the empty string raises the IndexError of
indexing the last character and delivers nothing; on every non-empty string
the indexing succeeds and some bytes are delivered. -/
theorem execute_command_empty_raises :
    ZimTerminal.execute_command "" = .error "IndexError: string index out of range" ∧
    (∀ st : PanelState, execute_command_step st "" =
      ⟨st, some "IndexError: string index out of range"⟩) ∧
    (∀ s : String, s ≠ "" → ∃ out : String, ZimTerminal.execute_command s = .ok out) := by
  refine ⟨rfl, fun st => rfl, fun s hs => ?_⟩
  by_cases hb : s.back = Char.ofNat 10
  · exact ⟨s, by simp [ZimTerminal.execute_command, hs, hb]⟩
  · exact ⟨s ++ "\n", by simp [ZimTerminal.execute_command, hs, hb]⟩

/-- Witness for C9: the empty command raises; a concrete non-empty command
succeeds. -/
theorem execute_command_empty_raises_witness :
    ZimTerminal.execute_command "" = .error "IndexError: string index out of range" ∧
    ∃ out : String, ZimTerminal.execute_command "pwd" = .ok out :=
  ⟨execute_command_empty_raises.1, execute_command_empty_raises.2.2 "pwd" (by decide)⟩

/-- Claim C10: `set_folder` stores the new folder reference unconditionally —
also when auto_switch_path_on_page_change is false and no reset happens — and
a subsequent reset resolves its working directory from that most recently
stored folder: the child it spawns runs in the directory resolved from the
new folder, not in the still-running session's directory. -/
theorem set_folder_stores_latest_folder (env : Env) (prefs prefs2 : Preferences)
    (st : PanelState) (f : String) :
    (set_folder env prefs st f).state.folder = some f ∧
    (prefs.auto_switch_path_on_page_change = false →
      set_folder env prefs st f = ⟨{ st with folder := some f }, none⟩ ∧
      (env.spawnFails (TerminalPluginWidget.path env.isdir f) prefs2.command_interpreter = false →
        (reset_terminal env prefs2 (set_folder env prefs st f).state).state.child =
          some ⟨st.spawnCount, TerminalPluginWidget.path env.isdir f,
            prefs2.command_interpreter⟩)) := by
  constructor
  · cases hauto : prefs.auto_switch_path_on_page_change with
    | false => simp [set_folder, hauto]
    | true => simp [set_folder, hauto, reset_terminal_state_folder]
  · intro hoff
    have hsf : set_folder env prefs st f = ⟨{ st with folder := some f }, none⟩ := by
      simp [set_folder, hoff]
    refine ⟨hsf, fun hfail => ?_⟩
    rw [hsf]
    simp [reset_terminal, spawn_sync, hfail, execute_command_step,
      execute_command_clear, feed_child]

/-- Witness for C10: with auto switch off the folder is stored without a
reset, and the next reset spawns in the directory resolved from it. -/
theorem set_folder_stores_latest_folder_witness :
    (set_folder envA prefsAutoOff initState "/home/user").state.folder = some "/home/user" ∧
    (reset_terminal envA prefsAutoOn
      (set_folder envA prefsAutoOff initState "/home/user").state).state.child =
      some ⟨0, "/home/user", "/bin/bash"⟩ :=
  have h := set_folder_stores_latest_folder envA prefsAutoOff prefsAutoOn initState "/home/user"
  ⟨h.1, ((h.2 (by decide)).2 (by decide)).trans (by decide)⟩

end ZimTerminalPlugin
